import Mathlib

/-!
# Verification of the real-time state-synchronization client

Shallow embedding of the Svelte dashboard's sync stores:

* `TradingV75` — the trading store of
  `src/frontend/src/lib/stores/trading.ts` (revision V7.5): state record,
  staleness detection, topic-handler table, `handleMessage`, the periodic
  stale-check tick, and the derived `traderStatus` store.
* `TradingV747` — the later revision of the same store found in
  `src/unnamed/part_003` (V7.47), whose `handleMessage` additionally clears
  the `error` flag and prefers the message-wrapper timestamp.
* `Devices` — the device store of `src/unnamed/part_003`
  (`setDeviceSwitch`, `updateDeviceState`) and the `TemperatureWidget`'s
  `isOn` derivation and `handleToggle` flow.
* `DeviceWs` / `TradingConn` — connection-lifecycle state machines for the
  device websocket store and the trading store (timers, reconnect,
  listener attachment), driven by explicit events.

Modelling conventions:
* JSON runtime values are the inductive `JVal`.  JavaScript truthiness,
  `||`, `?.` and `??` are the helpers `jtruthy`, `jor`, `ojget`, `jcoal`.
* ISO-8601 timestamp strings are represented by their epoch-millisecond
  integer value (`jnum`); `new Date(s).getTime()` and `toISOString()` are
  then the identity.  A timestamp field is present iff it is a `jnum`.
  (The only inexactness: the string "" is falsy in JS while no epoch value
  is; no handler ever produces an empty timestamp string.)
* `Date.now()` is an explicit `now : Int` argument.
-/

/-- A JSON runtime value, as produced by `JSON.parse`.  Numbers are modelled
as integers (the payload fields the verified code inspects are counters,
epoch timestamps and flags). -/
inductive JVal where
  | jnull : JVal
  | jbool : Bool → JVal
  | jnum  : Int → JVal
  | jstr  : String → JVal
  | jarr  : List JVal → JVal
  | jobj  : List (String × JVal) → JVal

open JVal

/-- Key lookup in an association list (JS object property access; first
binding wins, JS objects have unique keys). -/
def lookupK : List (String × JVal) → String → Option JVal
  | [], _ => none
  | (k', v) :: rest, k => if k' = k then some v else lookupK rest k

/-- Object-spread update `{...o, k: v}`: replace the binding in place if the
key exists, otherwise append it. -/
def setK : List (String × JVal) → String → JVal → List (String × JVal)
  | [], k, v => [(k, v)]
  | (k', v') :: rest, k, v =>
      if k' = k then (k', v) :: rest else (k', v') :: setK rest k v

/-- Property access `v.k`: defined on objects, `undefined` (`none`) on every
other value. -/
def jget (v : JVal) (k : String) : Option JVal :=
  match v with
  | jobj kvs => lookupK kvs k
  | _ => none

/-- Optional-chain access `v?.k` on a possibly-`undefined` value. -/
def ojget (v : Option JVal) (k : String) : Option JVal :=
  match v with
  | some x => jget x k
  | none => none

/-- JavaScript truthiness of a JSON value. -/
def jtruthy : JVal → Bool
  | jnull => false
  | jbool b => b
  | jnum n => n != 0
  | jstr s => s != ""
  | jarr _ => true
  | jobj _ => true

/-- `a || b` where `a` is a possibly-`undefined` property: the first operand
if it is present and truthy, otherwise the fallback. -/
def jor (a : Option JVal) (b : JVal) : JVal :=
  match a with
  | some x => if jtruthy x then x else b
  | none => b

/-- Nullish filtering for `??`: `none` when the value is absent or `null`. -/
def jcoal (a : Option JVal) : Option JVal :=
  match a with
  | some jnull => none
  | some x => some x
  | none => none

/-- `a ?? b` on a possibly-`undefined` property. -/
def jnn (a : Option JVal) (b : JVal) : JVal := (jcoal a).getD b

/-- Spread-with-key `{...v, k: x}`.  Spreading a primitive contributes no
properties, exactly as in JavaScript. -/
def jsetKey (v : JVal) (k : String) (x : JVal) : JVal :=
  match v with
  | jobj kvs => jobj (setK kvs k x)
  | _ => jobj [(k, x)]

/-- `v === jstr s` for a possibly-`undefined` value (strict equality against
a string literal, as in the status comparisons of the source). -/
def jisStr (v : Option JVal) (s : String) : Bool :=
  match v with
  | some (jstr t) => t = s
  | _ => false

/-- String interpolation `${v}` of a possibly-`undefined` value, used only to
build log/`reason` strings. -/
def jdisplay (v : Option JVal) : String :=
  match v with
  | none => "undefined"
  | some jnull => "null"
  | some (jbool b) => if b then "true" else "false"
  | some (jnum n) => toString n
  | some (jstr s) => s
  | some (jarr _) => "[array]"
  | some (jobj _) => "[object Object]"

namespace TradingV75

/-- `TradingState` of `trading.ts` (V7.5).  Service and portfolio slices hold
the raw payload values the handlers store (`payload as X` is a cast, not a
conversion), so they are modelled as `JVal`. -/
structure TradingState where
  connected : Bool
  lastUpdate : Option Int
  error : Option String
  heartbeat : Option JVal
  mlEntry : Option JVal
  mlExit : Option JVal
  onlineLearning : Option JVal
  dna : Option JVal
  t5008 : Option JVal
  scannerStock : Option JVal
  scannerForex : Option JVal
  engine : Option JVal
  ibkr : Option JVal
  breakers : Option JVal
  positions : JVal
  closedToday : JVal
  summary : Option JVal
  pipeline : Option JVal
  recommendations : JVal
  errors : Option JVal
  account : Option JVal
  currencies : Option JVal
  capital : Option JVal
  marketControl : Option JVal
  marginProtectionConfig : Option JVal
  marginProtectionScores : Option JVal
  tradingConfig : Option JVal


/-- The initial store value (`initialState`). -/
def initialState : TradingState where
  connected := false
  lastUpdate := none
  error := none
  heartbeat := none
  mlEntry := none
  mlExit := none
  onlineLearning := none
  dna := none
  t5008 := none
  scannerStock := none
  scannerForex := none
  engine := none
  ibkr := none
  breakers := none
  positions := jarr []
  closedToday := jarr []
  summary := none
  pipeline := none
  recommendations := jarr []
  errors := none
  account := none
  currencies := none
  capital := none
  marketControl := none
  marginProtectionConfig := none
  marginProtectionScores := none
  tradingConfig := none

/-- `STALE_THRESHOLD_MS` (V7.5): 75 seconds. -/
def STALE_THRESHOLD_MS : Int := 75000

/-- `isDataStale(lastUpdate)`: true when no update was ever accepted, or the
last update is older than the stale threshold. -/
def isDataStale (now : Int) (lastUpdate : Option Int) : Bool :=
  match lastUpdate with
  | none => true
  | some t => now - t > STALE_THRESHOLD_MS

/-- The `'trader/account/currencies'` payload transformation. -/
def transformCurrencies (p : JVal) : JVal :=
  let entries :=
    if jtruthy (jor (jget p "currencies") jnull) then
      match jget p "currencies" with
      | some (jobj kvs) =>
          kvs.map (fun kv =>
            (kv.1, jobj [
              ("cash", jor (jget kv.2 "cash") (jnum 0)),
              ("settled_cash",
                jor (jget kv.2 "settled_cash") (jor (jget kv.2 "settled") (jnum 0))),
              ("accrued_interest", jor (jget kv.2 "accrued_interest") (jnum 0))]))
      | _ => []
    else []
  jobj [
    ("currencies", jobj entries),
    ("base_currency",
      jor (jget p "base_currency") (jor (jget p "primary_currency") (jstr "USD")))]

/-- The `'trader/capital/allocation'` payload transformation. -/
def transformCapital (p : JVal) : JVal :=
  jobj [
    ("stock_budget", jor (ojget (jget p "stock") "budget") (jnum 0)),
    ("stock_used", jor (ojget (jget p "stock") "used") (jnum 0)),
    ("stock_available", jor (ojget (jget p "stock") "available") (jnum 0)),
    ("forex_budget", jor (ojget (jget p "forex") "budget") (jnum 0)),
    ("forex_used", jor (ojget (jget p "forex") "used") (jnum 0)),
    ("forex_available", jor (ojget (jget p "forex") "available") (jnum 0)),
    ("reserve", jor (jget p "reserve") (jnum 0)),
    ("session", jor (jget p "session") (jstr "UNKNOWN")),
    ("stock_enabled", jnn (ojget (jget p "stock") "enabled") (jbool true)),
    ("forex_enabled", jnn (ojget (jget p "forex") "enabled") (jbool true))]

/-- The `'trader/control/status'` payload transformation. -/
def transformControl (p : JVal) : JVal :=
  jobj [
    ("stock_enabled",
      jnn (jcoal (ojget (jget p "stock") "enabled") <|> jcoal (jget p "stock_enabled"))
        (jbool true)),
    ("forex_enabled",
      jnn (jcoal (ojget (jget p "forex") "enabled") <|> jcoal (jget p "forex_enabled"))
        (jbool true)),
    ("stock_reason",
      jor (ojget (jget p "stock") "reason") (jor (jget p "stock_reason") (jstr ""))),
    ("forex_reason",
      jor (ojget (jget p "forex") "reason") (jor (jget p "forex_reason") (jstr "")))]

/-- `TOPIC_HANDLERS` (V7.5).  Each TS handler returns a partial-update object
that `handleMessage` spreads over the current state; here handler and spread
are composed, so each entry maps the current state and payload directly to
the merged state. -/
def TOPIC_HANDLERS (t : String) : Option (TradingState → JVal → TradingState) :=
  match t with
  | "trader/services/heartbeat" => some fun st p => { st with heartbeat := some p }
  | "trader/services/ml_entry" => some fun st p => { st with mlEntry := some p }
  | "trader/services/ml_exit" => some fun st p => { st with mlExit := some p }
  | "trader/services/online_learning" => some fun st p => { st with onlineLearning := some p }
  | "trader/services/dna" => some fun st p => { st with dna := some p }
  | "trader/services/t5008" => some fun st p => { st with t5008 := some p }
  | "trader/services/scanner_stock" => some fun st p => { st with scannerStock := some p }
  | "trader/services/scanner_forex" => some fun st p => { st with scannerForex := some p }
  | "trader/services/engine" => some fun st p => { st with engine := some p }
  | "trader/services/ibkr" => some fun st p => { st with ibkr := some p }
  | "trader/services/breakers" => some fun st p => { st with breakers := some p }
  | "trader/portfolio/positions" =>
      some fun st p => { st with positions := jor (jget p "positions") (jarr []) }
  | "trader/portfolio/closed_today" =>
      some fun st p => { st with closedToday := jor (jget p "trades") (jarr []) }
  | "trader/portfolio/summary" => some fun st p => { st with summary := some p }
  | "trader/scanner/pipeline" => some fun st p => { st with pipeline := some p }
  | "trader/scanner/recommendations" =>
      some fun st p => { st with recommendations := jor (jget p "candidates") (jarr []) }
  | "trader/errors/summary" => some fun st p => { st with errors := some p }
  | "trader/account/summary" => some fun st p => { st with account := some p }
  | "trader/account/currencies" =>
      some fun st p => { st with currencies := some (transformCurrencies p) }
  | "trader/capital/allocation" =>
      some fun st p => { st with capital := some (transformCapital p) }
  | "trader/control/status" =>
      some fun st p => { st with marketControl := some (transformControl p) }
  | "trader/margin_protection/config" =>
      some fun st p => { st with marginProtectionConfig := some p }
  | "trader/margin_protection/scores" =>
      some fun st p => { st with marginProtectionScores := some p }
  | "trader/config/trading" => some fun st p => { st with tradingConfig := some p }
  | _ => none

/-- An inbound websocket frame after `JSON.parse`
(`{type, topic?, payload?}`). -/
structure WsMsg where
  type : String
  topic : Option String
  payload : Option JVal

/-- `messageTime` of V7.5 `handleMessage`: the payload's `timestamp` field if
present (retained MQTT messages carry old timestamps), else
`new Date().toISOString()` — the current time. -/
def messageTime (p : JVal) (now : Int) : Int :=
  match jget p "timestamp" with
  | some (jnum t) => t
  | _ => now

/-- `handleMessage` (V7.5): for an `'mqtt'` frame with truthy topic and
payload and a registered topic handler, spread the handler's update over the
state and set `lastUpdate` to `messageTime` — a single `update` call.
Everything else leaves the state untouched. -/
def handleMessage (st : TradingState) (m : WsMsg) (now : Int) : TradingState :=
  match m.topic, m.payload with
  | some t, some p =>
      if m.type = "mqtt" ∧ t ≠ "" ∧ jtruthy p then
        match TOPIC_HANDLERS t with
        | some h => { h st p with lastUpdate := some (messageTime p now) }
        | none => st
      else st
  | _, _ => st

/-- The `ws.onmessage` path: `JSON.parse` then `handleMessage`; a parse
failure (`none`) is caught and only logged, so the state is untouched and no
exception escapes the event handler. -/
def processFrame (st : TradingState) (parsed : Option WsMsg) (now : Int) : TradingState :=
  match parsed with
  | none => st
  | some m => handleMessage st m now

/-- The body of the periodic stale-check timer (`startStaleCheck`, every
30 s): when some update exists and is stale, overwrite the engine slice's
`status` to `'DOWN'` and set the error message; otherwise leave the state
as is. -/
def staleTick (now : Int) (st : TradingState) : TradingState :=
  if st.lastUpdate.isSome ∧ isDataStale now st.lastUpdate then
    { st with
      engine := match st.engine with
        | some e => some (jsetKey e "status" (jstr "DOWN"))
        | none => none,
      error := some "Trader offline - no heartbeat received" }
  else st

/-- The derived `traderStatus` record. -/
structure TraderStatusInfo where
  status : String
  mode : Option JVal
  lastUpdate : Option Int
  isStale : Bool
  uptimeSeconds : Option JVal
  reason : String


/-- `$trading.engine?.status`. -/
def engineStatusJ (st : TradingState) : Option JVal := ojget st.engine "status"

/-- `x || null` — `none` when the value is absent or falsy. -/
def jorNull (a : Option JVal) : Option JVal :=
  match a with
  | some x => if jtruthy x then some x else none
  | none => none

/-- The derived `traderStatus` store: staleness first, then the cached
engine-status field normalized through the `===` comparison chain. -/
def traderStatus (now : Int) (st : TradingState) : TraderStatusInfo :=
  let stale := isDataStale now st.lastUpdate
  if st.engine.isNone ∧ st.heartbeat.isNone then
    { status := "UNKNOWN", mode := none, lastUpdate := st.lastUpdate,
      isStale := true, uptimeSeconds := none,
      reason := "No data received from trader" }
  else if stale then
    { status := "OFFLINE", mode := jorNull (ojget st.engine "mode"),
      lastUpdate := st.lastUpdate, isStale := true,
      uptimeSeconds := jorNull (ojget st.heartbeat "uptime_seconds"),
      reason := "No heartbeat received - trader may be stopped" }
  else
    let es := engineStatusJ st
    if jisStr es "RUNNING" || jisStr es "ok" then
      { status := "RUNNING", mode := some (jor (ojget st.engine "mode") (jstr "PAPER")),
        lastUpdate := st.lastUpdate, isStale := false,
        uptimeSeconds := jorNull (ojget st.heartbeat "uptime_seconds"),
        reason := "Trader is active" }
    else if jisStr es "PAUSED" || jisStr es "warning" then
      { status := "PAUSED", mode := some (jor (ojget st.engine "mode") (jstr "PAPER")),
        lastUpdate := st.lastUpdate, isStale := false,
        uptimeSeconds := jorNull (ojget st.heartbeat "uptime_seconds"),
        reason := "Trader paused - IBKR may be disconnected" }
    else if jisStr es "DOWN" || jisStr es "error" || jisStr es "STOPPED" then
      { status := "STOPPED", mode := jorNull (ojget st.engine "mode"),
        lastUpdate := st.lastUpdate, isStale := false,
        uptimeSeconds := jorNull (ojget st.heartbeat "uptime_seconds"),
        reason := "Trader engine stopped" }
    else
      { status := "UNKNOWN", mode := jorNull (ojget st.engine "mode"),
        lastUpdate := st.lastUpdate, isStale := stale,
        uptimeSeconds := jorNull (ojget st.heartbeat "uptime_seconds"),
        reason := "Unknown engine status: " ++ jdisplay es }

end TradingV75

namespace TradingV747

/-- `TradingState` of the V7.47 revision (`src/unnamed/part_003`): the V7.5
fields plus historical statistics, position-limit and budget slices. -/
structure TradingState where
  connected : Bool
  lastUpdate : Option Int
  error : Option String
  heartbeat : Option JVal
  mlEntry : Option JVal
  mlExit : Option JVal
  onlineLearning : Option JVal
  dna : Option JVal
  t5008 : Option JVal
  scannerStock : Option JVal
  scannerForex : Option JVal
  engine : Option JVal
  ibkr : Option JVal
  breakers : Option JVal
  positions : JVal
  closedToday : JVal
  summary : Option JVal
  pipeline : Option JVal
  recommendations : JVal
  errors : Option JVal
  account : Option JVal
  currencies : Option JVal
  capital : Option JVal
  marketControl : Option JVal
  marginProtectionConfig : Option JVal
  marginProtectionScores : Option JVal
  tradingConfig : Option JVal
  historySummary : Option JVal
  allTimeStats : Option JVal
  positionLimits : Option JVal
  budgetConfig : Option JVal

/-- `STALE_THRESHOLD_MS` (V7.6 and later): 180 seconds. -/
def STALE_THRESHOLD_MS : Int := 180000

/-- `===` between two possibly-`undefined` JSON values as used in the
`'trader/history/update'` date comparisons (`undefined === undefined` is
true; two separately parsed arrays/objects are distinct references, hence
strictly unequal; the compared `date` fields are strings per the
`DailyStats`/`MLMetrics` interfaces). -/
def jsEq : Option JVal → Option JVal → Bool
  | none, none => true
  | some JVal.jnull, some JVal.jnull => true
  | some (JVal.jbool a), some (JVal.jbool b) => a = b
  | some (JVal.jnum a), some (JVal.jnum b) => a = b
  | some (JVal.jstr a), some (JVal.jstr b) => a = b
  | _, _ => false

/-- Elements of a JSON array value (`.map` / `.find` receivers; the
`HistorySummary` interface guarantees arrays here — a non-array would throw
in JS and never reaches the merge). -/
def jarrElems : Option JVal → List JVal
  | some (JVal.jarr l) => l
  | _ => []

/-- The `'trader/history/update'` merge of one day into a stats array:
`map` replaces every entry with a matching `date` by the fresh record, and
if no entry matched, `unshift` prepends it. -/
def mergeDay (stats : List JVal) (fresh : JVal) : List JVal :=
  let updated := stats.map (fun ds =>
    if jsEq (jget ds "date") (jget fresh "date") then fresh else ds)
  if updated.any (fun ds => jsEq (jget ds "date") (jget fresh "date")) then updated
  else fresh :: updated

/-- The `'trader/history/update'` handler body (incremental history merge).
When no `historySummary` exists yet the handler returns `{}` — an empty
update.  (`data.daily_stats.date` on a payload lacking `daily_stats` would
throw in JS; the model reads the absent field as `undefined`.) -/
def historyUpdate (st : TradingState) (p : JVal) : TradingState :=
  match st.historySummary with
  | none => st
  | some hs =>
      let dDaily := (jget p "daily_stats").getD JVal.jnull
      let dML := (jget p "ml_metrics").getD JVal.jnull
      let newDaily := mergeDay (jarrElems (jget hs "daily_stats")) dDaily
      let newML := mergeDay (jarrElems (jget hs "ml_metrics")) dML
      let hs1 := jsetKey hs "daily_stats" (JVal.jarr newDaily)
      let hs2 := jsetKey hs1 "ml_metrics" (JVal.jarr newML)
      { st with historySummary := some hs2 }

/-- `TOPIC_HANDLERS` of the V7.47 revision: the V7.5 table plus the
position-limit, budget and history topics.  As in `TradingV75`, the TS
handler's partial update and `handleMessage`'s spread are composed. -/
def TOPIC_HANDLERS (t : String) : Option (TradingState → JVal → TradingState) :=
  match t with
  | "trader/services/heartbeat" => some fun st p => { st with heartbeat := some p }
  | "trader/services/ml_entry" => some fun st p => { st with mlEntry := some p }
  | "trader/services/ml_exit" => some fun st p => { st with mlExit := some p }
  | "trader/services/online_learning" => some fun st p => { st with onlineLearning := some p }
  | "trader/services/dna" => some fun st p => { st with dna := some p }
  | "trader/services/t5008" => some fun st p => { st with t5008 := some p }
  | "trader/services/scanner_stock" => some fun st p => { st with scannerStock := some p }
  | "trader/services/scanner_forex" => some fun st p => { st with scannerForex := some p }
  | "trader/services/engine" => some fun st p => { st with engine := some p }
  | "trader/services/ibkr" => some fun st p => { st with ibkr := some p }
  | "trader/services/breakers" => some fun st p => { st with breakers := some p }
  | "trader/portfolio/positions" =>
      some fun st p => { st with positions := jor (jget p "positions") (JVal.jarr []) }
  | "trader/portfolio/closed_today" =>
      some fun st p => { st with closedToday := jor (jget p "trades") (JVal.jarr []) }
  | "trader/portfolio/summary" => some fun st p => { st with summary := some p }
  | "trader/scanner/pipeline" => some fun st p => { st with pipeline := some p }
  | "trader/scanner/recommendations" =>
      some fun st p => { st with recommendations := jor (jget p "candidates") (JVal.jarr []) }
  | "trader/errors/summary" => some fun st p => { st with errors := some p }
  | "trader/account/summary" => some fun st p => { st with account := some p }
  | "trader/account/currencies" =>
      some fun st p => { st with currencies := some (TradingV75.transformCurrencies p) }
  | "trader/capital/allocation" =>
      some fun st p => { st with capital := some (TradingV75.transformCapital p) }
  | "trader/control/status" =>
      some fun st p => { st with marketControl := some (TradingV75.transformControl p) }
  | "trader/margin_protection/config" =>
      some fun st p => { st with marginProtectionConfig := some p }
  | "trader/margin_protection/scores" =>
      some fun st p => { st with marginProtectionScores := some p }
  | "trader/config/trading" => some fun st p => { st with tradingConfig := some p }
  | "trader/config/position_limits" => some fun st p => { st with positionLimits := some p }
  | "trader/config/budget" => some fun st p => { st with budgetConfig := some p }
  | "trader/history/daily_stats" => some fun st p => { st with historySummary := some p }
  | "trader/history/all_time" => some fun st p => { st with allTimeStats := some p }
  | "trader/history/update" => some historyUpdate
  | _ => none

/-- An inbound frame of the V7.47 bridge: the backend wrapper additionally
carries a `timestamp`. -/
structure WsMsg where
  type : String
  topic : Option String
  payload : Option JVal
  timestamp : Option Int

/-- `messageTime` of V7.47 `handleMessage`: wrapper timestamp first, then
payload timestamp, then the current time. -/
def messageTime (m : WsMsg) (p : JVal) (now : Int) : Int :=
  match m.timestamp with
  | some t => t
  | none =>
      match jget p "timestamp" with
      | some (JVal.jnum t) => t
      | _ => now

/-- `handleMessage` (V7.47): as in V7.5, but the single `update` call
additionally clears the `error` flag (`error: null`), fixing the stale
"Trader offline" message persisting after reconnection. -/
def handleMessage (st : TradingState) (m : WsMsg) (now : Int) : TradingState :=
  match m.topic, m.payload with
  | some t, some p =>
      if m.type = "mqtt" ∧ t ≠ "" ∧ jtruthy p then
        match TOPIC_HANDLERS t with
        | some h => { h st p with lastUpdate := some (messageTime m p now), error := none }
        | none => st
      else st
  | _, _ => st

end TradingV747

namespace Devices

/-- A device record as held in the devices store (`DeviceWithState`):
identity and the runtime fields the verified operations read or write.
(Static metadata fields — room, icon, favorites, capabilities, timestamps —
are carried and copied opaquely by the store and are omitted.) -/
structure Device where
  id : Nat
  name : String
  label : Option String
  switch_state : Option String
  level : Option Int
  state : List (String × JVal)

/-- The devices store state (`DeviceState`): a `Map` from device id to
device (modelled as an insertion-ordered association list with unique keys,
matching JS `Map` iteration order), plus loading/error/lastUpdated
bookkeeping. -/
structure DeviceStoreState where
  devices : List (Nat × Device)
  loading : Bool
  error : Option String

/-- `Map.get`. -/
def mget : List (Nat × Device) → Nat → Option Device
  | [], _ => none
  | (k, d) :: rest, i => if k = i then some d else mget rest i

/-- `Map.set`: overwrite in place when the key exists (JS `Map` keeps the
original insertion position), insert at the end otherwise. -/
def mset : List (Nat × Device) → Nat → Device → List (Nat × Device)
  | [], i, d => [(i, d)]
  | (k, d') :: rest, i, d =>
      if k = i then (k, d) :: rest else (k, d') :: mset rest i d

/-- The `updateDeviceState` lookup loop: the first device in iteration order
whose `label` or `name` equals the MQTT device id. -/
def findByName : List (Nat × Device) → String → Option Device
  | [], _ => none
  | (_, d) :: rest, n =>
      if d.label = some n ∨ d.name = n then some d else findByName rest n

/-- `devices.updateDeviceState(deviceId, attribute, value)`: find the target
by name/label and shallow-merge the single attribute into its state bag; if
no device matches, the store is unchanged.  Only the bag is written — the
top-level mirror fields (`switch_state`, `level`, …) are not touched. -/
def updateDeviceState (st : DeviceStoreState) (deviceId : String)
    (attrName : String) (value : JVal) : DeviceStoreState :=
  match findByName st.devices deviceId with
  | some d =>
      { st with
        devices := mset st.devices d.id { d with state := setK d.state attrName value } }
  | none => st

/-- `devices.setDeviceSwitch(deviceId, switchState)` (the optimistic update
after a successful switch command): set both the top-level `switch_state`
mirror and the `switch` attribute of the state bag. -/
def setDeviceSwitch (st : DeviceStoreState) (deviceId : Nat)
    (switchState : String) : DeviceStoreState :=
  match mget st.devices deviceId with
  | some d =>
      let d1 : Device :=
        { d with
          switch_state := some switchState
          state := setK d.state "switch" (jstr switchState) }
      { st with devices := mset st.devices deviceId d1 }
  | none => st

/-- The `TemperatureWidget`'s derived `level`: the top-level numeric `level`
field if present, else a numeric `state.level`, else `null`. -/
def widgetLevel (d : Device) : Option Int :=
  match d.level with
  | some n => some n
  | none =>
      match lookupK d.state "level" with
      | some (jnum n) => some n
      | _ => none

/-- The `TemperatureWidget`'s derived `isOn`: `switch_state === 'on'`, or
`state.switch === 'on'`, or `state.switch === true`, or a positive level. -/
def widgetIsOn (d : Device) : Bool :=
  d.switch_state = some "on"
    || jisStr (lookupK d.state "switch") "on"
    || (match lookupK d.state "switch" with
        | some (jbool b) => b
        | _ => false)
    || (match widgetLevel d with
        | some n => decide (0 < n)
        | none => false)

/-- Observable steps of the widget's `handleToggle` flow, in program order:
the command request is issued and awaited; only then, on success, the
optimistic `setDeviceSwitch` merge runs and the delayed confirmation fetch
is scheduled; on rejection the `catch` block logs the failure. -/
inductive ToggleEvent where
  | cmdIssued (cmd : String)
  | cmdResolved (ok : Bool)
  | optimisticMerge
  | refreshScheduled
  | errorLogged
  deriving DecidableEq, Repr

/-- `handleToggle` of `TemperatureWidget.svelte`, for a command that either
resolves (`cmdOk = true`) or rejects: guard on `loading`, `await
turnOn/turnOff`, then `setDeviceSwitch` + `refreshDeviceAfterCommand` on
success, or `console.error` on rejection (no store write, no rollback).
Returns the resulting store state and the ordered trace of steps. -/
def handleToggle (st : DeviceStoreState) (dev : Device) (loading : Bool)
    (cmdOk : Bool) : DeviceStoreState × List ToggleEvent :=
  if loading then (st, [])
  else
    let newState := if widgetIsOn dev then "off" else "on"
    let cmd := if widgetIsOn dev then "turnOff" else "turnOn"
    if cmdOk then
      (setDeviceSwitch st dev.id newState,
        [.cmdIssued cmd, .cmdResolved true, .optimisticMerge, .refreshScheduled])
    else
      (st, [.cmdIssued cmd, .cmdResolved false, .errorLogged])

end Devices

namespace DeviceWs

/-- The device websocket store value (`WsState`). -/
structure WsState where
  connected : Bool
  error : Option String
  reconnecting : Bool
  deriving DecidableEq, Repr

/-- `RECONNECT_DELAY_MS`: the fixed reconnect delay (`setTimeout(..., 5000)`). -/
def RECONNECT_DELAY_MS : Nat := 5000

/-- The websocket store's connection machine: the store value plus the
closure variables of `createWebSocketStore` (`ws`, `reconnectTimer`,
`pingInterval`).  `socketLive` records that a socket object with attached
`onopen`/`onmessage`/`onerror`/`onclose` handlers exists — the code never
detaches handlers, so `disconnect` leaves it set and the pending close event
still runs.  `reconnectTimers` counts concurrently pending reconnect timers
(`scheduledDelay` their delay) and `connectCalls` counts invocations of
`connect()`. -/
structure Machine where
  store : WsState
  wsVar : Bool
  wsOpen : Bool
  socketLive : Bool
  reconnectTimers : Nat
  scheduledDelay : Option Nat
  pingTimer : Bool
  connectCalls : Nat
  deriving DecidableEq, Repr

/-- The machine before any `connect()`. -/
def init : Machine where
  store := { connected := false, error := none, reconnecting := false }
  wsVar := false
  wsOpen := false
  socketLive := false
  reconnectTimers := 0
  scheduledDelay := none
  pingTimer := false
  connectCalls := 0

/-- `connect()`: no-op when `ws?.readyState === OPEN`; otherwise clear
`error`/`reconnecting` and create a fresh socket with handlers attached. -/
def connectFn (m : Machine) : Machine :=
  let m1 : Machine := { m with connectCalls := m.connectCalls + 1 }
  if m1.wsVar ∧ m1.wsOpen then m1
  else
    { m1 with
      store := { m1.store with error := none, reconnecting := false }
      wsVar := true
      wsOpen := false
      socketLive := true }

/-- The events the machine reacts to: the store's two imperative entry
points, the socket's callbacks, and a pending reconnect timer firing. -/
inductive Event where
  | connectCall
  | openEvt
  | messageEvt
  | errorEvt
  | closeEvt
  | fireReconnect
  | disconnectCall
  deriving DecidableEq, Repr

/-- One event step.  `openEvt`/`errorEvt`/`closeEvt` run only while a socket
with attached handlers exists.  `closeEvt` follows `ws.onclose`: mark
disconnected, clear the ping interval, and — when no reconnect timer is
pending — set `reconnecting` and schedule exactly one reconnect after the
fixed delay.  `fireReconnect` consumes a pending timer and calls
`connect()`.  `disconnectCall` clears both timers, closes the socket and
resets the store, but detaches nothing. -/
def step (m : Machine) : Event → Machine
  | .connectCall => connectFn m
  | .openEvt =>
      if m.socketLive then
        { m with
          wsOpen := true
          store := { connected := true, error := none, reconnecting := false }
          pingTimer := true }
      else m
  | .messageEvt => m
  | .errorEvt =>
      if m.socketLive then
        { m with store := { m.store with error := some "Connection error" } }
      else m
  | .closeEvt =>
      if m.socketLive then
        let m1 : Machine :=
          { m with
            wsOpen := false
            store := { m.store with connected := false }
            pingTimer := false }
        if m1.reconnectTimers = 0 then
          { m1 with
            store := { m1.store with reconnecting := true }
            reconnectTimers := 1
            scheduledDelay := some RECONNECT_DELAY_MS }
        else m1
      else m
  | .fireReconnect =>
      if 1 ≤ m.reconnectTimers then
        connectFn { m with reconnectTimers := m.reconnectTimers - 1, scheduledDelay := none }
      else m
  | .disconnectCall =>
      { m with
        reconnectTimers := 0
        scheduledDelay := none
        pingTimer := false
        wsVar := false
        wsOpen := false
        store := { connected := false, error := none, reconnecting := false } }

/-- Run a sequence of events from a machine state. -/
def run (m : Machine) : List Event → Machine
  | [] => m
  | e :: es => run (step m e) es

end DeviceWs

namespace TradingConn

/-- Connection-lifecycle machine of the trading store
(`createTradingStore`): closure variables `ws`, `reconnectTimer`,
`staleCheckTimer`, the `connected`/`error` fields of the store it mutates,
plus the same `socketLive` handler-attachment flag and `connectCalls`
counter as `DeviceWs.Machine`.  The trading store has a stale-check interval
instead of a ping interval; its `onclose` does not set a `reconnecting`
flag (the trading `TradingState` has none). -/
structure Machine where
  connected : Bool
  error : Option String
  wsVar : Bool
  wsOpen : Bool
  socketLive : Bool
  reconnectTimers : Nat
  staleTimer : Bool
  connectCalls : Nat
  deriving DecidableEq, Repr

/-- The machine before any `connect()`. -/
def init : Machine where
  connected := false
  error := none
  wsVar := false
  wsOpen := false
  socketLive := false
  reconnectTimers := 0
  staleTimer := false
  connectCalls := 0

/-- Trading-store `connect()`: no-op when the socket is open, else clear
`error` and create a socket with handlers attached. -/
def connectFn (m : Machine) : Machine :=
  let m1 : Machine := { m with connectCalls := m.connectCalls + 1 }
  if m1.wsVar ∧ m1.wsOpen then m1
  else { m1 with error := none, wsVar := true, wsOpen := false, socketLive := true }

/-- Events of the trading connection machine. -/
inductive Event where
  | connectCall
  | openEvt
  | errorEvt
  | closeEvt
  | fireReconnect
  | disconnectCall
  deriving DecidableEq, Repr

/-- One event step.  `openEvt` marks connected and starts the stale-check
interval (`startStaleCheck` is guarded, so an existing interval is kept);
`closeEvt` marks disconnected and schedules a single reconnect when none is
pending; `disconnectCall` is `disconnect()`: stop the stale check, clear the
reconnect timer, close the socket and reset the store — without detaching
the socket's handlers. -/
def step (m : Machine) : Event → Machine
  | .connectCall => connectFn m
  | .openEvt =>
      if m.socketLive then
        { m with wsOpen := true, connected := true, error := none, staleTimer := true }
      else m
  | .errorEvt =>
      if m.socketLive then { m with error := some "Connection error" } else m
  | .closeEvt =>
      if m.socketLive then
        let m1 : Machine := { m with wsOpen := false, connected := false }
        if m1.reconnectTimers = 0 then { m1 with reconnectTimers := 1 } else m1
      else m
  | .fireReconnect =>
      if 1 ≤ m.reconnectTimers then
        connectFn { m with reconnectTimers := m.reconnectTimers - 1 }
      else m
  | .disconnectCall =>
      { m with
        staleTimer := false
        reconnectTimers := 0
        wsVar := false
        wsOpen := false
        connected := false
        error := none }

end TradingConn

/-! ## Theorems about the claims -/

/-- A stale `lastUpdate` makes `isDataStale` true. -/
theorem isDataStale_of_old (now t : Int) (h : now - t > TradingV75.STALE_THRESHOLD_MS) :
    TradingV75.isDataStale now (some t) = true := by
  simp [TradingV75.isDataStale, h]

/-- C1: for the trading stream, whenever some engine or heartbeat data has
been received and the last accepted message's timestamp is older than the
stale threshold (`now - lastUpdate > STALE_THRESHOLD_MS`), the derived
`traderStatus` reports `OFFLINE` with `isStale = true`, regardless of the
last received explicit engine-status field. -/
theorem C1_staleness_overrides_engine_status (now : Int) (st : TradingV75.TradingState)
    (hdata : st.engine.isSome = true ∨ st.heartbeat.isSome = true)
    (t : Int) (hlu : st.lastUpdate = some t)
    (hstale : now - t > TradingV75.STALE_THRESHOLD_MS) :
    (TradingV75.traderStatus now st).status = "OFFLINE" ∧
      (TradingV75.traderStatus now st).isStale = true := by
  have hs : TradingV75.isDataStale now st.lastUpdate = true := by
    rw [hlu]; exact isDataStale_of_old now t hstale
  have hne : ¬(st.engine.isNone = true ∧ st.heartbeat.isNone = true) := by
    rcases hdata with h | h <;> rintro ⟨h1, h2⟩ <;> simp_all
  simp only [TradingV75.traderStatus, hs]
  rw [if_neg hne]
  exact ⟨rfl, rfl⟩

/-- Witness for C1: a state whose engine slice still says `RUNNING` but whose
last update is 100 s old is reported `OFFLINE` and stale. -/
theorem C1_witness :
    (TradingV75.traderStatus 100000
      { TradingV75.initialState with
        engine := some (jobj [("status", jstr "RUNNING"), ("mode", jstr "PAPER")])
        lastUpdate := some 0 }).status = "OFFLINE" ∧
    (TradingV75.traderStatus 100000
      { TradingV75.initialState with
        engine := some (jobj [("status", jstr "RUNNING"), ("mode", jstr "PAPER")])
        lastUpdate := some 0 }).isStale = true :=
  C1_staleness_overrides_engine_status 100000 _ (Or.inl rfl) 0 rfl (by decide)

/-- Looking up the key just written by an object-spread update. -/
theorem lookupK_setK_same (kvs : List (String × JVal)) (k : String) (x : JVal) :
    lookupK (setK kvs k x) k = some x := by
  induction kvs with
  | nil => simp [setK, lookupK]
  | cons hd tl ih =>
      rcases hd with ⟨k1, v1⟩
      by_cases h : k1 = k
      · simp [setK, lookupK, h]
      · simp [setK, lookupK, h, ih]

/-- An object-spread update leaves every other key unchanged. -/
theorem lookupK_setK_other (kvs : List (String × JVal)) (k k' : String) (x : JVal)
    (h : k' ≠ k) : lookupK (setK kvs k x) k' = lookupK kvs k' := by
  induction kvs with
  | nil => simp [setK, lookupK, Ne.symm h]
  | cons hd tl ih =>
      rcases hd with ⟨k1, v1⟩
      by_cases h1 : k1 = k
      · subst h1
        simp [setK, lookupK, Ne.symm h]
      · simp [setK, lookupK, h1, ih]

/-- `jget` after `jsetKey`. -/
theorem jget_jsetKey (v : JVal) (k k' : String) (x : JVal) :
    jget (jsetKey v k x) k' = if k' = k then some x else jget v k' := by
  by_cases h : k' = k
  · subst h
    cases v <;> simp [jsetKey, jget, lookupK, lookupK_setK_same]
  · cases v <;>
      simp [jsetKey, jget, lookupK, h, Ne.symm h, lookupK_setK_other _ _ _ _ h]

/-- C3 counterexample: the claim that a stale tick leaves every last-known
attribute value unchanged is false — on a stale state whose engine slice
says `RUNNING`, the tick overwrites the engine's `status` field to `DOWN`. -/
theorem C3_counterexample :
    jisStr (ojget
      ({ TradingV75.initialState with
         engine := some (jobj [("status", jstr "RUNNING"), ("mode", jstr "PAPER")])
         lastUpdate := some 0 } : TradingV75.TradingState).engine "status") "RUNNING" = true ∧
    jisStr (ojget (TradingV75.staleTick 100000
      { TradingV75.initialState with
        engine := some (jobj [("status", jstr "RUNNING"), ("mode", jstr "PAPER")])
        lastUpdate := some 0 }).engine "status") "DOWN" = true := by
  constructor <;> rfl

/-- C3 (amended): a stale-detecting tick preserves `lastUpdate` and every
state slice except that it overwrites the engine slice's `status` attribute
to `DOWN` (when an engine slice exists) and sets the error message; all
other engine attributes are preserved. -/
theorem C3_stale_tick_frame (now : Int) (st : TradingV75.TradingState)
    (hsome : st.lastUpdate.isSome = true)
    (hst : TradingV75.isDataStale now st.lastUpdate = true) :
    (TradingV75.staleTick now st).lastUpdate = st.lastUpdate ∧
    (TradingV75.staleTick now st).connected = st.connected ∧
    (TradingV75.staleTick now st).heartbeat = st.heartbeat ∧
    (TradingV75.staleTick now st).mlEntry = st.mlEntry ∧
    (TradingV75.staleTick now st).mlExit = st.mlExit ∧
    (TradingV75.staleTick now st).onlineLearning = st.onlineLearning ∧
    (TradingV75.staleTick now st).dna = st.dna ∧
    (TradingV75.staleTick now st).t5008 = st.t5008 ∧
    (TradingV75.staleTick now st).scannerStock = st.scannerStock ∧
    (TradingV75.staleTick now st).scannerForex = st.scannerForex ∧
    (TradingV75.staleTick now st).ibkr = st.ibkr ∧
    (TradingV75.staleTick now st).breakers = st.breakers ∧
    (TradingV75.staleTick now st).positions = st.positions ∧
    (TradingV75.staleTick now st).closedToday = st.closedToday ∧
    (TradingV75.staleTick now st).summary = st.summary ∧
    (TradingV75.staleTick now st).pipeline = st.pipeline ∧
    (TradingV75.staleTick now st).recommendations = st.recommendations ∧
    (TradingV75.staleTick now st).errors = st.errors ∧
    (TradingV75.staleTick now st).account = st.account ∧
    (TradingV75.staleTick now st).currencies = st.currencies ∧
    (TradingV75.staleTick now st).capital = st.capital ∧
    (TradingV75.staleTick now st).marketControl = st.marketControl ∧
    (TradingV75.staleTick now st).marginProtectionConfig = st.marginProtectionConfig ∧
    (TradingV75.staleTick now st).marginProtectionScores = st.marginProtectionScores ∧
    (TradingV75.staleTick now st).tradingConfig = st.tradingConfig ∧
    (TradingV75.staleTick now st).error = some "Trader offline - no heartbeat received" ∧
    (∀ k, k ≠ "status" →
      ojget (TradingV75.staleTick now st).engine k = ojget st.engine k) ∧
    (st.engine.isSome = true →
      jisStr (ojget (TradingV75.staleTick now st).engine "status") "DOWN" = true) ∧
    (st.engine.isNone = true → (TradingV75.staleTick now st).engine = none) := by
  have hcond : (st.lastUpdate.isSome = true ∧ TradingV75.isDataStale now st.lastUpdate = true) :=
    ⟨hsome, hst⟩
  unfold TradingV75.staleTick
  rw [if_pos hcond]
  refine ⟨rfl, rfl, rfl, rfl, rfl, rfl, rfl, rfl, rfl, rfl, rfl, rfl, rfl, rfl, rfl,
    rfl, rfl, rfl, rfl, rfl, rfl, rfl, rfl, rfl, rfl, rfl, ?_, ?_, ?_⟩
  · intro k hk
    cases he : st.engine with
    | none => simp [ojget]
    | some e => simp [ojget, jget_jsetKey, hk]
  · intro hs
    cases he : st.engine with
    | none => rw [he] at hs; simp at hs
    | some e => simp [ojget, jget_jsetKey, jisStr]
  · intro hn
    cases he : st.engine with
    | none => simp
    | some e => rw [he] at hn; simp at hn

/-- Witness for C3's amended frame theorem at a concrete stale state. -/
theorem C3_witness :
    (TradingV75.staleTick 100000
      { TradingV75.initialState with
        engine := some (jobj [("status", jstr "RUNNING"), ("mode", jstr "PAPER")])
        heartbeat := some (jobj [("status", jstr "ok")])
        lastUpdate := some 0 }).heartbeat = some (jobj [("status", jstr "ok")]) ∧
    (TradingV75.staleTick 100000
      { TradingV75.initialState with
        engine := some (jobj [("status", jstr "RUNNING"), ("mode", jstr "PAPER")])
        heartbeat := some (jobj [("status", jstr "ok")])
        lastUpdate := some 0 }).error = some "Trader offline - no heartbeat received" := by
  have h := C3_stale_tick_frame 100000
    { TradingV75.initialState with
      engine := some (jobj [("status", jstr "RUNNING"), ("mode", jstr "PAPER")])
      heartbeat := some (jobj [("status", jstr "ok")])
      lastUpdate := some 0 } rfl (by decide)
  obtain ⟨h1, h2, h3, h4, h5, h6, h7, h8, h9, h10, h11, h12, h13, h14, h15, h16,
    h17, h18, h19, h20, h21, h22, h23, h24, h25, h26, h27, h28, h29⟩ := h
  exact ⟨h3, h26⟩

/-- Registered topics are nonempty strings, hence truthy. -/
theorem TOPIC_HANDLERS_ne_empty (t : String)
    (f : TradingV75.TradingState → JVal → TradingV75.TradingState)
    (hh : TradingV75.TOPIC_HANDLERS t = some f) : t ≠ "" := by
  intro ht
  subst ht
  rw [show TradingV75.TOPIC_HANDLERS "" = none from rfl] at hh
  exact Option.noConfusion hh

/-- A value with a readable property is an object, hence truthy. -/
theorem jtruthy_of_jget (p : JVal) (k : String) (v : JVal)
    (h : jget p k = some v) : jtruthy p = true := by
  cases p <;> first | rfl | simp [jget] at h

/-- Unfolding V7.5 `handleMessage` on a data frame with a registered topic:
the handler's update and the new `lastUpdate` are applied in one step. -/
theorem handleMessage_eq (st : TradingV75.TradingState) (t : String) (p : JVal)
    (f : TradingV75.TradingState → JVal → TradingV75.TradingState) (now : Int)
    (hh : TradingV75.TOPIC_HANDLERS t = some f) (hp : jtruthy p = true) :
    TradingV75.handleMessage st ⟨"mqtt", some t, some p⟩ now
      = { f st p with lastUpdate := some (TradingV75.messageTime p now) } := by
  have hne := TOPIC_HANDLERS_ne_empty t f hh
  unfold TradingV75.handleMessage
  simp [hne, hp, hh]

/-- The payload's timestamp field determines `messageTime`. -/
theorem messageTime_of_ts (p : JVal) (ts now : Int)
    (hts : jget p "timestamp" = some (jnum ts)) :
    TradingV75.messageTime p now = ts := by
  unfold TradingV75.messageTime
  rw [hts]

/-- A fresh `lastUpdate` and any engine or heartbeat data give
`isStale = false` in the derived status. -/
theorem traderStatus_isStale_false (nowq : Int) (st' : TradingV75.TradingState) (ts : Int)
    (hlu : st'.lastUpdate = some ts) (hfresh : nowq - ts ≤ TradingV75.STALE_THRESHOLD_MS)
    (hdata : st'.engine.isSome = true ∨ st'.heartbeat.isSome = true) :
    (TradingV75.traderStatus nowq st').isStale = false := by
  have hstale : TradingV75.isDataStale nowq st'.lastUpdate = false := by
    rw [hlu]
    simp only [TradingV75.isDataStale, decide_eq_false_iff_not]
    omega
  have hne : ¬(st'.engine.isNone = true ∧ st'.heartbeat.isNone = true) := by
    rcases hdata with h | h <;> rintro ⟨h1, h2⟩ <;> simp_all
  simp only [TradingV75.traderStatus, hstale]
  rw [if_neg hne]
  split
  · rename_i hfalse
    exact absurd hfalse (by simp)
  · split
    · rfl
    · split
      · rfl
      · split <;> rfl

/-- A fresh `lastUpdate` and a cached engine status of `RUNNING`/`ok` give
derived status `RUNNING`. -/
theorem traderStatus_running (nowq : Int) (st' : TradingV75.TradingState) (ts : Int)
    (hlu : st'.lastUpdate = some ts) (hfresh : nowq - ts ≤ TradingV75.STALE_THRESHOLD_MS)
    (hrun : jisStr (TradingV75.engineStatusJ st') "RUNNING" = true ∨
      jisStr (TradingV75.engineStatusJ st') "ok" = true) :
    (TradingV75.traderStatus nowq st').status = "RUNNING" := by
  have hstale : TradingV75.isDataStale nowq st'.lastUpdate = false := by
    rw [hlu]
    simp only [TradingV75.isDataStale, decide_eq_false_iff_not]
    omega
  have heng : st'.engine.isSome = true := by
    rcases hrun with h | h <;>
      · unfold TradingV75.engineStatusJ at h
        cases he : st'.engine with
        | none => rw [he] at h; simp [ojget, jisStr] at h
        | some e => rfl
  have hne : ¬(st'.engine.isNone = true ∧ st'.heartbeat.isNone = true) := by
    rintro ⟨h1, h2⟩
    simp_all
  have hcond : (jisStr (TradingV75.engineStatusJ st') "RUNNING" ||
      jisStr (TradingV75.engineStatusJ st') "ok") = true := by
    rcases hrun with h | h <;> simp [h]
  simp only [TradingV75.traderStatus, hstale]
  rw [if_neg hne, if_neg (by simp : ¬(false = true)), if_pos hcond]

/-- C2 counterexample: after the stale tick has marked the engine `DOWN`, a
new accepted heartbeat (status `ok`, fresh timestamp `T1 = 100000`) clears
staleness and sets `lastUpdate = T1` immediately, but the derived status is
`STOPPED`, not `RUNNING` — the claim that any new accepted message
immediately returns the status to healthy is false. -/
theorem C2_counterexample :
    (TradingV75.handleMessage
      { TradingV75.initialState with
        engine := some (jobj [("status", jstr "DOWN"), ("mode", jstr "PAPER")])
        lastUpdate := some 0 }
      ⟨"mqtt", some "trader/services/heartbeat",
        some (jobj [("status", jstr "ok"), ("uptime_seconds", jnum 42),
          ("timestamp", jnum 100000)])⟩ 100000).lastUpdate = some 100000 ∧
    (TradingV75.traderStatus 100001 (TradingV75.handleMessage
      { TradingV75.initialState with
        engine := some (jobj [("status", jstr "DOWN"), ("mode", jstr "PAPER")])
        lastUpdate := some 0 }
      ⟨"mqtt", some "trader/services/heartbeat",
        some (jobj [("status", jstr "ok"), ("uptime_seconds", jnum 42),
          ("timestamp", jnum 100000)])⟩ 100000)).isStale = false ∧
    (TradingV75.traderStatus 100001 (TradingV75.handleMessage
      { TradingV75.initialState with
        engine := some (jobj [("status", jstr "DOWN"), ("mode", jstr "PAPER")])
        lastUpdate := some 0 }
      ⟨"mqtt", some "trader/services/heartbeat",
        some (jobj [("status", jstr "ok"), ("uptime_seconds", jnum 42),
          ("timestamp", jnum 100000)])⟩ 100000)).status = "STOPPED" ∧
    (TradingV75.traderStatus 100001 (TradingV75.handleMessage
      { TradingV75.initialState with
        engine := some (jobj [("status", jstr "DOWN"), ("mode", jstr "PAPER")])
        lastUpdate := some 0 }
      ⟨"mqtt", some "trader/services/heartbeat",
        some (jobj [("status", jstr "ok"), ("uptime_seconds", jnum 42),
          ("timestamp", jnum 100000)])⟩ 100000)).status ≠ "RUNNING" := by
  refine ⟨rfl, rfl, rfl, ?_⟩
  intro hq
  rw [show (TradingV75.traderStatus 100001 (TradingV75.handleMessage
      { TradingV75.initialState with
        engine := some (jobj [("status", jstr "DOWN"), ("mode", jstr "PAPER")])
        lastUpdate := some 0 }
      ⟨"mqtt", some "trader/services/heartbeat",
        some (jobj [("status", jstr "ok"), ("uptime_seconds", jnum 42),
          ("timestamp", jnum 100000)])⟩ 100000)).status = "STOPPED" from rfl] at hq
  exact absurd hq (by decide)

/-- C2 (amended): the arrival of any accepted message on a registered topic
whose payload carries a timestamp immediately sets `lastUpdate` to that
timestamp, without waiting for the stale-check tick; if that timestamp is
fresh, the derived status reports `isStale = false` (provided any engine or
heartbeat data exists), and it returns to `RUNNING` exactly when the cached
engine-status field is `RUNNING`/`ok` — e.g. after the stale tick has
overwritten the engine status to `DOWN`, the status shows `STOPPED` until a
fresh engine message arrives. -/
theorem C2_fresh_message_immediate
    (st : TradingV75.TradingState) (t : String) (p : JVal)
    (f : TradingV75.TradingState → JVal → TradingV75.TradingState)
    (ts now nowq : Int)
    (hh : TradingV75.TOPIC_HANDLERS t = some f)
    (hts : jget p "timestamp" = some (jnum ts))
    (hfresh : nowq - ts ≤ TradingV75.STALE_THRESHOLD_MS) :
    (TradingV75.handleMessage st ⟨"mqtt", some t, some p⟩ now).lastUpdate = some ts ∧
    (((TradingV75.handleMessage st ⟨"mqtt", some t, some p⟩ now).engine.isSome = true ∨
      (TradingV75.handleMessage st ⟨"mqtt", some t, some p⟩ now).heartbeat.isSome = true) →
      (TradingV75.traderStatus nowq
        (TradingV75.handleMessage st ⟨"mqtt", some t, some p⟩ now)).isStale = false) ∧
    ((jisStr (TradingV75.engineStatusJ
        (TradingV75.handleMessage st ⟨"mqtt", some t, some p⟩ now)) "RUNNING" = true ∨
      jisStr (TradingV75.engineStatusJ
        (TradingV75.handleMessage st ⟨"mqtt", some t, some p⟩ now)) "ok" = true) →
      (TradingV75.traderStatus nowq
        (TradingV75.handleMessage st ⟨"mqtt", some t, some p⟩ now)).status = "RUNNING") := by
  have hp : jtruthy p = true := jtruthy_of_jget p "timestamp" _ hts
  have heq := handleMessage_eq st t p f now hh hp
  have hlu : (TradingV75.handleMessage st ⟨"mqtt", some t, some p⟩ now).lastUpdate = some ts := by
    rw [heq, show ({ f st p with
      lastUpdate := some (TradingV75.messageTime p now) } : TradingV75.TradingState).lastUpdate
        = some (TradingV75.messageTime p now) from rfl,
      messageTime_of_ts p ts now hts]
  refine ⟨hlu, ?_, ?_⟩
  · intro hdata
    exact traderStatus_isStale_false nowq _ ts hlu hfresh hdata
  · intro hrun
    exact traderStatus_running nowq _ ts hlu hfresh hrun

/-- Witness for C2's amended theorem: with a fresh cached `RUNNING` engine
status, a new heartbeat makes the derived status `RUNNING`. -/
theorem C2_witness :
    (TradingV75.traderStatus 100001 (TradingV75.handleMessage
      { TradingV75.initialState with
        engine := some (jobj [("status", jstr "RUNNING"), ("mode", jstr "PAPER")]) }
      ⟨"mqtt", some "trader/services/heartbeat",
        some (jobj [("status", jstr "ok"), ("timestamp", jnum 100000)])⟩ 100000)).status
      = "RUNNING" :=
  (C2_fresh_message_immediate
    { TradingV75.initialState with
      engine := some (jobj [("status", jstr "RUNNING"), ("mode", jstr "PAPER")]) }
    "trader/services/heartbeat"
    (jobj [("status", jstr "ok"), ("timestamp", jnum 100000)])
    _ 100000 100000 100001 rfl rfl (by decide)).2.2 (Or.inl rfl)

/-- Every registered V7.5 topic handler writes only its own slice: the
`error` flag is left exactly as it was. -/
theorem handlers_preserve_error (t : String)
    (f : TradingV75.TradingState → JVal → TradingV75.TradingState)
    (hh : TradingV75.TOPIC_HANDLERS t = some f)
    (st : TradingV75.TradingState) (p : JVal) : (f st p).error = st.error := by
  unfold TradingV75.TOPIC_HANDLERS at hh
  split at hh <;> cases hh <;> rfl

/-- Every registered V7.5 topic handler is a function of the payload alone
on the slices it writes: re-applying it to the already-updated state (with
any `lastUpdate`) changes nothing. -/
theorem handlers_idempotent (t : String)
    (f : TradingV75.TradingState → JVal → TradingV75.TradingState)
    (hh : TradingV75.TOPIC_HANDLERS t = some f)
    (st : TradingV75.TradingState) (p : JVal) (x : Option Int) :
    ({ f ({ f st p with lastUpdate := x }) p with lastUpdate := x }
      : TradingV75.TradingState) = { f st p with lastUpdate := x } := by
  unfold TradingV75.TOPIC_HANDLERS at hh
  split at hh <;> cases hh <;> rfl

/-- Registered V7.47 topics are nonempty strings. -/
theorem TOPIC_HANDLERS47_ne_empty (t : String)
    (f : TradingV747.TradingState → JVal → TradingV747.TradingState)
    (hh : TradingV747.TOPIC_HANDLERS t = some f) : t ≠ "" := by
  intro ht
  subst ht
  rw [show TradingV747.TOPIC_HANDLERS "" = none from rfl] at hh
  exact Option.noConfusion hh

/-- Unfolding V7.47 `handleMessage` on a data frame with a registered topic:
one step merges the handler's update, sets `lastUpdate` and clears the
`error` flag. -/
theorem handleMessage47_eq (st : TradingV747.TradingState) (t : String) (p : JVal)
    (f : TradingV747.TradingState → JVal → TradingV747.TradingState)
    (mts : Option Int) (now : Int)
    (hh : TradingV747.TOPIC_HANDLERS t = some f) (hp : jtruthy p = true) :
    TradingV747.handleMessage st ⟨"mqtt", some t, some p, mts⟩ now
      = { f st p with
          lastUpdate := some (TradingV747.messageTime ⟨"mqtt", some t, some p, mts⟩ p now)
          error := none } := by
  have hne := TOPIC_HANDLERS47_ne_empty t f hh
  unfold TradingV747.handleMessage
  simp [hne, hp, hh]

/-- C5 counterexample: under the `trading.ts` (V7.5) `handleMessage`, a
matched data message does *not* clear the feed-health error flag — after a
heartbeat is handled on a state carrying the stale error, the error is still
set, contradicting "error becomes null". -/
theorem C5_counterexample :
    (TradingV75.handleMessage
      { TradingV75.initialState with
        error := some "Trader offline - no heartbeat received"
        lastUpdate := some 0 }
      ⟨"mqtt", some "trader/services/heartbeat",
        some (jobj [("status", jstr "ok"), ("timestamp", jnum 100000)])⟩ 100000).error
      = some "Trader offline - no heartbeat received" ∧
    (TradingV75.handleMessage
      { TradingV75.initialState with
        error := some "Trader offline - no heartbeat received"
        lastUpdate := some 0 }
      ⟨"mqtt", some "trader/services/heartbeat",
        some (jobj [("status", jstr "ok"), ("timestamp", jnum 100000)])⟩ 100000).error
      ≠ none := by
  refine ⟨rfl, ?_⟩
  intro hq
  rw [show (TradingV75.handleMessage
      { TradingV75.initialState with
        error := some "Trader offline - no heartbeat received"
        lastUpdate := some 0 }
      ⟨"mqtt", some "trader/services/heartbeat",
        some (jobj [("status", jstr "ok"), ("timestamp", jnum 100000)])⟩ 100000).error
      = some "Trader offline - no heartbeat received" from rfl] at hq
  exact Option.noConfusion hq

/-- C5 (amended): for every data message whose topic has a registered
reducer, the state update is applied in one atomic step that merges the
reducer's update and sets `lastUpdate` to the message time; the error flag
is cleared to `null` in that same step only in the V7.47 revision
(`part_003`), while the V7.5 `handleMessage` of `trading.ts` leaves the
error flag unchanged. -/
theorem C5_atomic_merge_and_error_flag
    (stA : TradingV75.TradingState) (stB : TradingV747.TradingState)
    (t : String) (p : JVal)
    (fA : TradingV75.TradingState → JVal → TradingV75.TradingState)
    (fB : TradingV747.TradingState → JVal → TradingV747.TradingState)
    (mts : Option Int) (now : Int)
    (hhA : TradingV75.TOPIC_HANDLERS t = some fA)
    (hhB : TradingV747.TOPIC_HANDLERS t = some fB)
    (hp : jtruthy p = true) :
    TradingV75.handleMessage stA ⟨"mqtt", some t, some p⟩ now
      = { fA stA p with lastUpdate := some (TradingV75.messageTime p now) } ∧
    (TradingV75.handleMessage stA ⟨"mqtt", some t, some p⟩ now).error = stA.error ∧
    TradingV747.handleMessage stB ⟨"mqtt", some t, some p, mts⟩ now
      = { fB stB p with
          lastUpdate := some (TradingV747.messageTime ⟨"mqtt", some t, some p, mts⟩ p now)
          error := none } ∧
    (TradingV747.handleMessage stB ⟨"mqtt", some t, some p, mts⟩ now).error = none := by
  have heqA := handleMessage_eq stA t p fA now hhA hp
  have heqB := handleMessage47_eq stB t p fB mts now hhB hp
  refine ⟨heqA, ?_, heqB, ?_⟩
  · rw [heqA]
    exact handlers_preserve_error t fA hhA stA p
  · rw [heqB]

/-- Witness for C5's amended theorem: a heartbeat message on states carrying
a previous error keeps the error under V7.5 and clears it under V7.47. -/
theorem C5_witness :
    (TradingV75.handleMessage
      { TradingV75.initialState with error := some "Connection error" }
      ⟨"mqtt", some "trader/services/heartbeat",
        some (jobj [("status", jstr "ok"), ("timestamp", jnum 5)])⟩ 7).error
      = some "Connection error" ∧
    (TradingV747.handleMessage
      { connected := false, lastUpdate := none, error := some "Connection error",
        heartbeat := none, mlEntry := none, mlExit := none, onlineLearning := none,
        dna := none, t5008 := none, scannerStock := none, scannerForex := none,
        engine := none, ibkr := none, breakers := none, positions := jarr [],
        closedToday := jarr [], summary := none, pipeline := none,
        recommendations := jarr [], errors := none, account := none,
        currencies := none, capital := none, marketControl := none,
        marginProtectionConfig := none, marginProtectionScores := none,
        tradingConfig := none, historySummary := none, allTimeStats := none,
        positionLimits := none, budgetConfig := none }
      ⟨"mqtt", some "trader/services/heartbeat",
        some (jobj [("status", jstr "ok"), ("timestamp", jnum 5)]), some 6⟩ 7).error
      = none := by
  have h := C5_atomic_merge_and_error_flag
    { TradingV75.initialState with error := some "Connection error" }
    { connected := false, lastUpdate := none, error := some "Connection error",
      heartbeat := none, mlEntry := none, mlExit := none, onlineLearning := none,
      dna := none, t5008 := none, scannerStock := none, scannerForex := none,
      engine := none, ibkr := none, breakers := none, positions := jarr [],
      closedToday := jarr [], summary := none, pipeline := none,
      recommendations := jarr [], errors := none, account := none,
      currencies := none, capital := none, marketControl := none,
      marginProtectionConfig := none, marginProtectionScores := none,
      tradingConfig := none, historySummary := none, allTimeStats := none,
      positionLimits := none, budgetConfig := none }
    "trader/services/heartbeat"
    (jobj [("status", jstr "ok"), ("timestamp", jnum 5)]) _ _ (some 6) 7 rfl rfl rfl
  exact ⟨h.2.1, h.2.2.2⟩

/-- C10: replaying the identical envelope (registered topic, payload carrying
a timestamp) a second time leaves the state exactly as after the first
delivery — retained-message redelivery is idempotent, independently of the
wall-clock times of the two deliveries. -/
theorem C10_replay_idempotent
    (st : TradingV75.TradingState) (t : String) (p : JVal)
    (f : TradingV75.TradingState → JVal → TradingV75.TradingState)
    (ts now1 now2 : Int)
    (hh : TradingV75.TOPIC_HANDLERS t = some f)
    (hts : jget p "timestamp" = some (jnum ts)) :
    TradingV75.handleMessage
      (TradingV75.handleMessage st ⟨"mqtt", some t, some p⟩ now1)
      ⟨"mqtt", some t, some p⟩ now2
      = TradingV75.handleMessage st ⟨"mqtt", some t, some p⟩ now1 := by
  have hp : jtruthy p = true := jtruthy_of_jget p "timestamp" _ hts
  have heq1 := handleMessage_eq st t p f now1 hh hp
  have heq2 := handleMessage_eq
    ({ f st p with lastUpdate := some (TradingV75.messageTime p now1) }) t p f now2 hh hp
  rw [heq1, heq2, messageTime_of_ts p ts now1 hts, messageTime_of_ts p ts now2 hts]
  exact handlers_idempotent t f hh st p (some ts)

/-- Witness for C10 at a concrete positions snapshot replayed twice. -/
theorem C10_witness :
    TradingV75.handleMessage
      (TradingV75.handleMessage TradingV75.initialState
        ⟨"mqtt", some "trader/portfolio/positions",
          some (jobj [("positions", jarr [jobj [("symbol", jstr "AAPL")]]),
            ("timestamp", jnum 50)])⟩ 60)
      ⟨"mqtt", some "trader/portfolio/positions",
        some (jobj [("positions", jarr [jobj [("symbol", jstr "AAPL")]]),
          ("timestamp", jnum 50)])⟩ 90
      = TradingV75.handleMessage TradingV75.initialState
        ⟨"mqtt", some "trader/portfolio/positions",
          some (jobj [("positions", jarr [jobj [("symbol", jstr "AAPL")]]),
            ("timestamp", jnum 50)])⟩ 60 :=
  C10_replay_idempotent TradingV75.initialState "trader/portfolio/positions"
    (jobj [("positions", jarr [jobj [("symbol", jstr "AAPL")]]), ("timestamp", jnum 50)])
    _ 50 60 90 rfl rfl

/-- C8: an inbound raw frame that fails to parse (the caught `JSON.parse`
branch) or parses to a data message whose topic has no registered reducer
leaves the entire state — `lastUpdate` and `error` included — exactly
unchanged, and the total model shows no exception escapes the handler. -/
theorem C8_bad_frames_no_effect (st : TradingV75.TradingState)
    (parsed : Option TradingV75.WsMsg) (now : Int)
    (h : parsed = none ∨ ∃ m, parsed = some m ∧ m.type = "mqtt" ∧
      (∀ t, m.topic = some t → TradingV75.TOPIC_HANDLERS t = none)) :
    TradingV75.processFrame st parsed now = st := by
  rcases h with h | ⟨m, hm, htype, htop⟩
  · rw [h]
    rfl
  · rw [hm]
    show TradingV75.handleMessage st m now = st
    unfold TradingV75.handleMessage
    rcases htopq : m.topic with _ | t
    · simp
    · rcases hpl : m.payload with _ | p
      · simp
      · simp only
        split
        · rw [htop t htopq]
        · rfl

/-- Witness for C8: a data message on an unregistered topic is dropped. -/
theorem C8_witness :
    TradingV75.processFrame TradingV75.initialState
      (some ⟨"mqtt", some "trader/unknown/topic", some (jobj [("x", jnum 1)])⟩) 5
      = TradingV75.initialState :=
  C8_bad_frames_no_effect TradingV75.initialState
    (some ⟨"mqtt", some "trader/unknown/topic", some (jobj [("x", jnum 1)])⟩) 5
    (Or.inr ⟨⟨"mqtt", some "trader/unknown/topic", some (jobj [("x", jnum 1)])⟩, rfl, rfl,
      fun t ht => by cases ht; rfl⟩)

/-- `Map.get` after `Map.set` at the same key. -/
theorem mget_mset_same (l : List (Nat × Devices.Device)) (i : Nat) (d : Devices.Device) :
    Devices.mget (Devices.mset l i d) i = some d := by
  induction l with
  | nil => simp [Devices.mset, Devices.mget]
  | cons hd tl ih =>
      rcases hd with ⟨k, d0⟩
      by_cases h : k = i
      · simp [Devices.mset, Devices.mget, h]
      · simp [Devices.mset, Devices.mget, h, ih]

/-- A lamp device that is off, for the concrete optimistic-update scenarios. -/
def lamp1 : Devices.Device where
  id := 1
  name := "lamp-1"
  label := some "lamp-1"
  switch_state := some "off"
  level := none
  state := [("switch", jstr "off")]

/-- A one-device store holding `lamp1`. -/
def lampStore : Devices.DeviceStoreState where
  devices := [(1, lamp1)]
  loading := false
  error := none

/-- C4 counterexample: `setDeviceSwitch(1, 'on')` followed by the feed update
`updateDeviceState('lamp-1', 'switch', 'off')` does *not* make the visible
switch value `off`: the feed write only touches the state bag, the top-level
`switch_state` mirror keeps the optimistic `'on'`, and the widget's `isOn`
consumer (which checks `switch_state` first) still reports the lamp on. -/
theorem C4_counterexample :
    (Devices.mget (Devices.updateDeviceState
      (Devices.setDeviceSwitch lampStore 1 "on")
      "lamp-1" "switch" (jstr "off")).devices 1).map Devices.widgetIsOn
      = some true ∧
    (Devices.mget (Devices.updateDeviceState
      (Devices.setDeviceSwitch lampStore 1 "on")
      "lamp-1" "switch" (jstr "off")).devices 1).map
        (fun d => d.switch_state) = some (some "on") :=
  ⟨rfl, rfl⟩

/-- The record update `setDeviceSwitch` performs on the found device:
both the mirror field and the bag attribute. -/
def Devices.withSwitch (d : Devices.Device) (sw : String) : Devices.Device :=
  { d with switch_state := some sw, state := setK d.state "switch" (jstr sw) }

/-- The record update `updateDeviceState` performs on the found device:
one attribute merged into the state bag only. -/
def Devices.bagSet (d : Devices.Device) (k : String) (v : JVal) : Devices.Device :=
  { d with state := setK d.state k v }

/-- C4 (amended): after `setDeviceSwitch(id, 'on')` followed by a feed update
of the same device's `switch` attribute to `'off'`, the `switch` attribute in
the device's state bag is `'off'` (the feed supersedes the bag value), but
the top-level `switch_state` mirror written by the optimistic update is not
touched by feed updates and remains `'on'`. -/
theorem C4_feed_overwrites_bag_not_mirror
    (st : Devices.DeviceStoreState) (id : Nat) (dev : Devices.Device) (nm : String)
    (h1 : Devices.mget st.devices id = some dev)
    (hid : dev.id = id)
    (h2 : Devices.findByName (Devices.setDeviceSwitch st id "on").devices nm
      = Devices.mget (Devices.setDeviceSwitch st id "on").devices id) :
    ∃ d2, Devices.mget (Devices.updateDeviceState
        (Devices.setDeviceSwitch st id "on") nm "switch" (jstr "off")).devices id
          = some d2 ∧
      lookupK d2.state "switch" = some (jstr "off") ∧
      d2.switch_state = some "on" := by
  have hst1 : Devices.setDeviceSwitch st id "on"
      = { st with devices := Devices.mset st.devices id (Devices.withSwitch dev "on") } := by
    unfold Devices.setDeviceSwitch Devices.withSwitch
    rw [h1]
  have hg1 : Devices.mget (Devices.setDeviceSwitch st id "on").devices id
      = some (Devices.withSwitch dev "on") := by
    rw [hst1]
    exact mget_mset_same _ _ _
  rw [hg1] at h2
  have hupd : Devices.updateDeviceState (Devices.setDeviceSwitch st id "on")
        nm "switch" (jstr "off")
      = { (Devices.setDeviceSwitch st id "on") with
          devices := Devices.mset (Devices.setDeviceSwitch st id "on").devices dev.id
            (Devices.bagSet (Devices.withSwitch dev "on") "switch" (jstr "off")) } := by
    unfold Devices.updateDeviceState Devices.bagSet
    rw [h2]
    rfl
  refine ⟨Devices.bagSet (Devices.withSwitch dev "on") "switch" (jstr "off"), ?_, ?_, rfl⟩
  · rw [hupd]
    show Devices.mget
      (Devices.mset (Devices.setDeviceSwitch st id "on").devices dev.id
        (Devices.bagSet (Devices.withSwitch dev "on") "switch" (jstr "off"))) id = _
    rw [hid]
    exact mget_mset_same _ _ _
  · show lookupK (setK (Devices.withSwitch dev "on").state "switch" (jstr "off")) "switch"
      = some (jstr "off")
    exact lookupK_setK_same _ _ _

/-- A second lamp, used to instantiate C4's amended theorem. -/
def lamp2 : Devices.Device where
  id := 2
  name := "lamp-2"
  label := none
  switch_state := none
  level := none
  state := [("switch", jstr "off")]

/-- A one-device store holding `lamp2`. -/
def lamp2Store : Devices.DeviceStoreState where
  devices := [(2, lamp2)]
  loading := false
  error := none

/-- Witness for C4's amended theorem at a concrete one-lamp store. -/
theorem C4_witness :
    ∃ d2, Devices.mget (Devices.updateDeviceState
        (Devices.setDeviceSwitch lamp2Store 2 "on") "lamp-2" "switch"
          (jstr "off")).devices 2 = some d2 ∧
      lookupK d2.state "switch" = some (jstr "off") ∧
      d2.switch_state = some "on" :=
  C4_feed_overwrites_bag_not_mirror lamp2Store 2 lamp2 "lamp-2" rfl rfl rfl

/-- C9 counterexample: when the switch command rejects, the device store is
left exactly unchanged — with the lamp off, nothing was optimistically
written before the command resolved, so no optimistic `'on'` remains visible
afterwards, and the trace shows the merge step never precedes command
resolution. -/
theorem C9_counterexample :
    (Devices.handleToggle lampStore lamp1 false false).1 = lampStore ∧
    ((Devices.mget (Devices.handleToggle lampStore lamp1 false false).1.devices 1).map
      Devices.widgetIsOn = some false) ∧
    (Devices.handleToggle lampStore lamp1 false false).2
      = [Devices.ToggleEvent.cmdIssued "turnOn", Devices.ToggleEvent.cmdResolved false,
         Devices.ToggleEvent.errorLogged] :=
  ⟨rfl, rfl, rfl⟩

/-- C9 (amended): `handleToggle` issues the command first and applies the
`setDeviceSwitch` update only after the command resolves successfully; on
rejection no update is applied — the store is exactly unchanged (nothing to
roll back) and the failure is only logged (`errorLogged`), while on success
the optimistic merge and the delayed confirmation fetch follow command
resolution in that order. -/
theorem C9_toggle_merge_after_resolve
    (st : Devices.DeviceStoreState) (dev : Devices.Device) :
    (Devices.handleToggle st dev false false).1 = st ∧
    (Devices.handleToggle st dev false false).2
      = [Devices.ToggleEvent.cmdIssued
           (if Devices.widgetIsOn dev then "turnOff" else "turnOn"),
         Devices.ToggleEvent.cmdResolved false, Devices.ToggleEvent.errorLogged] ∧
    (Devices.handleToggle st dev false true).1
      = Devices.setDeviceSwitch st dev.id
          (if Devices.widgetIsOn dev then "off" else "on") ∧
    (Devices.handleToggle st dev false true).2
      = [Devices.ToggleEvent.cmdIssued
           (if Devices.widgetIsOn dev then "turnOff" else "turnOn"),
         Devices.ToggleEvent.cmdResolved true, Devices.ToggleEvent.optimisticMerge,
         Devices.ToggleEvent.refreshScheduled] := by
  by_cases h : Devices.widgetIsOn dev = true <;>
    simp [Devices.handleToggle, h]

/-- C6 counterexample: after `disconnect()`, a close event delivered by the
closing socket still runs the attached `onclose` handler — it mutates the
store (`reconnecting` becomes true) and schedules a reconnect timer whose
firing invokes `connect()` again, so teardown is not final. -/
theorem C6_counterexample :
    (DeviceWs.run DeviceWs.init [DeviceWs.Event.connectCall, DeviceWs.Event.openEvt,
      DeviceWs.Event.disconnectCall, DeviceWs.Event.closeEvt]).reconnectTimers = 1 ∧
    (DeviceWs.run DeviceWs.init [DeviceWs.Event.connectCall, DeviceWs.Event.openEvt,
      DeviceWs.Event.disconnectCall, DeviceWs.Event.closeEvt]).store.reconnecting = true ∧
    (DeviceWs.step (DeviceWs.run DeviceWs.init [DeviceWs.Event.connectCall,
      DeviceWs.Event.openEvt, DeviceWs.Event.disconnectCall, DeviceWs.Event.closeEvt])
      DeviceWs.Event.fireReconnect).connectCalls = 2 :=
  ⟨rfl, rfl, rfl⟩

/-- C6 (amended): `disconnect()` synchronously cancels the pending reconnect
timer, the keepalive interval (device stream) and the stale-check interval
(trading stream), closes the socket and resets the store — but it does not
detach the channel's event handlers, so a close event delivered after
teardown still mutates the store and schedules a reconnect that will invoke
`connect()`. -/
theorem C6_disconnect_cancels_timers_not_handlers
    (m : DeviceWs.Machine) (tm : TradingConn.Machine)
    (hm : m.socketLive = true) (htm : tm.socketLive = true) :
    (DeviceWs.step m DeviceWs.Event.disconnectCall).reconnectTimers = 0 ∧
    (DeviceWs.step m DeviceWs.Event.disconnectCall).pingTimer = false ∧
    (DeviceWs.step m DeviceWs.Event.disconnectCall).store
      = { connected := false, error := none, reconnecting := false } ∧
    (DeviceWs.step m DeviceWs.Event.disconnectCall).socketLive = true ∧
    (DeviceWs.step (DeviceWs.step m DeviceWs.Event.disconnectCall)
      DeviceWs.Event.closeEvt).reconnectTimers = 1 ∧
    (DeviceWs.step (DeviceWs.step m DeviceWs.Event.disconnectCall)
      DeviceWs.Event.closeEvt).store.reconnecting = true ∧
    (TradingConn.step tm TradingConn.Event.disconnectCall).staleTimer = false ∧
    (TradingConn.step tm TradingConn.Event.disconnectCall).reconnectTimers = 0 ∧
    (TradingConn.step tm TradingConn.Event.disconnectCall).socketLive = true ∧
    (TradingConn.step (TradingConn.step tm TradingConn.Event.disconnectCall)
      TradingConn.Event.closeEvt).reconnectTimers = 1 := by
  simp [DeviceWs.step, TradingConn.step, hm, htm]

/-- Witness for C6's amended theorem at concrete connected machines. -/
theorem C6_witness :
    (DeviceWs.step (DeviceWs.run DeviceWs.init [DeviceWs.Event.connectCall,
      DeviceWs.Event.openEvt]) DeviceWs.Event.disconnectCall).reconnectTimers = 0 ∧
    (DeviceWs.step (DeviceWs.step (DeviceWs.run DeviceWs.init
      [DeviceWs.Event.connectCall, DeviceWs.Event.openEvt])
      DeviceWs.Event.disconnectCall) DeviceWs.Event.closeEvt).reconnectTimers = 1 ∧
    (TradingConn.step (TradingConn.step TradingConn.init
      TradingConn.Event.connectCall) TradingConn.Event.disconnectCall).staleTimer = false := by
  have h := C6_disconnect_cancels_timers_not_handlers
    (DeviceWs.run DeviceWs.init [DeviceWs.Event.connectCall, DeviceWs.Event.openEvt])
    (TradingConn.step TradingConn.init TradingConn.Event.connectCall) rfl rfl
  exact ⟨h.1, h.2.2.2.2.1, h.2.2.2.2.2.2.1⟩

/-- One step never leaves more than one reconnect timer pending. -/
theorem step_reconnect_le_one (m : DeviceWs.Machine) (e : DeviceWs.Event)
    (h : m.reconnectTimers ≤ 1) : (DeviceWs.step m e).reconnectTimers ≤ 1 := by
  cases e with
  | connectCall =>
      simp only [DeviceWs.step, DeviceWs.connectFn]
      split <;> simpa using h
  | openEvt =>
      simp only [DeviceWs.step]
      split <;> simpa using h
  | messageEvt => exact h
  | errorEvt =>
      simp only [DeviceWs.step]
      split <;> exact h
  | closeEvt =>
      simp only [DeviceWs.step]
      split
      · split <;> simp_all
      · exact h
  | fireReconnect =>
      simp only [DeviceWs.step, DeviceWs.connectFn]
      split
      · split <;> simp <;> omega
      · exact h
  | disconnectCall => simp [DeviceWs.step]

/-- Along any event sequence the reconnect-timer count stays at most one. -/
theorem run_reconnect_le_one (evs : List DeviceWs.Event) (m : DeviceWs.Machine)
    (h : m.reconnectTimers ≤ 1) : (DeviceWs.run m evs).reconnectTimers ≤ 1 := by
  induction evs generalizing m with
  | nil => exact h
  | cons e es ih => exact ih (DeviceWs.step m e) (step_reconnect_le_one m e h)

/-- C7 counterexample: the claim that `reconnecting` stays true until the
next open is false — after close schedules the reconnect (`reconnecting`
true), the timer firing invokes `connect()`, which resets `reconnecting` to
false while the new socket has not opened yet. -/
theorem C7_counterexample :
    (DeviceWs.run DeviceWs.init [DeviceWs.Event.connectCall, DeviceWs.Event.openEvt,
      DeviceWs.Event.closeEvt]).store.reconnecting = true ∧
    (DeviceWs.run DeviceWs.init [DeviceWs.Event.connectCall, DeviceWs.Event.openEvt,
      DeviceWs.Event.closeEvt, DeviceWs.Event.fireReconnect]).store.reconnecting = false ∧
    (DeviceWs.run DeviceWs.init [DeviceWs.Event.connectCall, DeviceWs.Event.openEvt,
      DeviceWs.Event.closeEvt, DeviceWs.Event.fireReconnect]).wsOpen = false :=
  ⟨rfl, rfl, rfl⟩

/-- C7 (amended): an unexpected close while no reconnect is pending schedules
exactly one reconnect after the fixed 5-second delay and sets
`reconnecting`; an overlapping close while one is pending schedules nothing
further (the count never exceeds one along any trace); when the timer fires,
`connect()` is invoked exactly once and the timer is consumed.
`reconnecting` is true only until `connect()` runs, not until the next
open. -/
theorem C7_single_reconnect_timer :
    (∀ evs : List DeviceWs.Event,
      (DeviceWs.run DeviceWs.init evs).reconnectTimers ≤ 1) ∧
    (∀ m : DeviceWs.Machine, m.socketLive = true → m.reconnectTimers = 0 →
      (DeviceWs.step m DeviceWs.Event.closeEvt).reconnectTimers = 1 ∧
      (DeviceWs.step m DeviceWs.Event.closeEvt).scheduledDelay
        = some DeviceWs.RECONNECT_DELAY_MS ∧
      (DeviceWs.step m DeviceWs.Event.closeEvt).store.reconnecting = true ∧
      (DeviceWs.step m DeviceWs.Event.closeEvt).connectCalls = m.connectCalls) ∧
    (∀ m : DeviceWs.Machine, m.socketLive = true → m.reconnectTimers = 1 →
      (DeviceWs.step m DeviceWs.Event.closeEvt).reconnectTimers = 1 ∧
      (DeviceWs.step m DeviceWs.Event.closeEvt).connectCalls = m.connectCalls) ∧
    (∀ m : DeviceWs.Machine, m.reconnectTimers = 1 →
      (DeviceWs.step m DeviceWs.Event.fireReconnect).connectCalls
        = m.connectCalls + 1 ∧
      (DeviceWs.step m DeviceWs.Event.fireReconnect).reconnectTimers = 0) ∧
    DeviceWs.RECONNECT_DELAY_MS = 5000 := by
  refine ⟨?_, ?_, ?_, ?_, rfl⟩
  · intro evs
    exact run_reconnect_le_one evs DeviceWs.init (by decide)
  · intro m hs hz
    simp [DeviceWs.step, hs, hz]
  · intro m hs ho
    simp [DeviceWs.step, hs, ho]
  · intro m ho
    simp only [DeviceWs.step, DeviceWs.connectFn, ho]
    simp only [Nat.le_refl, if_true, if_pos]
    split <;> exact ⟨rfl, rfl⟩

/-- Witness for C7 at a freshly closed connection. -/
theorem C7_witness :
    (DeviceWs.step (DeviceWs.run DeviceWs.init
      [DeviceWs.Event.connectCall, DeviceWs.Event.openEvt])
      DeviceWs.Event.closeEvt).reconnectTimers = 1 ∧
    (DeviceWs.step (DeviceWs.run DeviceWs.init
      [DeviceWs.Event.connectCall, DeviceWs.Event.openEvt])
      DeviceWs.Event.closeEvt).scheduledDelay = some DeviceWs.RECONNECT_DELAY_MS ∧
    (DeviceWs.run DeviceWs.init [DeviceWs.Event.connectCall, DeviceWs.Event.openEvt,
      DeviceWs.Event.closeEvt, DeviceWs.Event.closeEvt]).reconnectTimers ≤ 1 := by
  have h := C7_single_reconnect_timer
  refine ⟨(h.2.1 _ rfl rfl).1, (h.2.1 _ rfl rfl).2.1, h.1 _⟩
